import Mathlib

/-!
Verification of the CEP / weather-forecast resolution engine of the
`mcp-city-and-forecast` repository.

The development shallowly embeds the relevant source files:

* `src/common/utils/zipcode.ts` — the `extractZipCode` extractor, embedded
  concretely including its three regex patterns (`\d{5}-\d{3}`, `\d{8}`,
  `\d{5}\s+\d{3}`) with JavaScript leftmost-match semantics.
* `src/server/provider/brasil-api.ts` — `postcode`, `forecast`,
  `searchCityAndForecast`, `postcodeAndForecast`.  Network behaviour
  (the result of each `makeRequest` call) is supplied by an `Oracle`
  record; an `Except.error` value models a thrown provider error and
  carries the thrown message.
* `src/server/tools.ts` (second revision, lines 778-2113) — the
  `SISTEMA_INTELIGENTE` tool's `execute` function: the fallback
  interpretation rule and the five-scenario dispatch.  `try`/`catch`
  blocks are embedded with the `tryCatchE` combinator, and the text
  extractors whose keyword lists (`WEATHER_KEYWORDS`, `NON_CITY_WORDS`)
  are not part of the repository snapshot (`hasWeatherKeyword`,
  `isContextualWeatherQuery`, `extractCityAndState`,
  `extractBestCityName`) enter through an `Analysis` record holding
  their results on the current user input; theorems quantify over all
  their possible outputs.

JavaScript value conventions used throughout: a JS `string | null |
undefined` is an `Option String`, where `none` is `null`/`undefined`;
JS truthiness of such a value is `jsTruthyS`; an object property access
that may miss (`ACTIONS.CONTEXT_QUERY`) is modelled by a total lookup
function returning `Option String` with `none` for `undefined`.
-/

/-- JS truthiness of a `string | null | undefined` value: `null`,
`undefined` and the empty string are falsy. -/
def jsTruthyS : Option String → Bool
  | none => false
  | some s => s != ""

/-- JS `a || b` on `string | null | undefined` values. -/
def jsOrS (a b : Option String) : Option String :=
  if jsTruthyS a then a else b

/-- JS string interpolation of a `string | null | undefined` value into a
URL: `null`/`undefined` prints as `"null"`. -/
def jsArgString : Option String → String
  | none => "null"
  | some s => s

/-- JS `s || d` for a plain string `s` (used for the
`x || "Não informado"` defaults): the empty string is falsy. -/
def strOrDefault (s d : String) : String :=
  if s = "" then d else s

/-- JS `n || d` for a number `n`: `0` is falsy. -/
def jsNumOr (n d : Int) : Int :=
  if n = 0 then d else n

/-! ## `extractZipCode` (src/common/utils/zipcode.ts, lines 41-88)

`extractNumbers` strips every non-digit character.  `extractZipCode`
returns the digits when exactly 8 remain; with more than 8 digits it
scans the *original* text for the first match of each of three regex
patterns in order, returning the digits of the first match that cleans
to exactly 8 digits. -/

/-- Embeds `input.replace(/\D/g, "")` — keep only the ASCII digits
(JS `\d` is exactly `[0-9]`, as is `Char.isDigit`). -/
def extractNumbers (input : List Char) : List Char :=
  input.filter Char.isDigit

/-- Take exactly `n` leading digits, returning them and the rest. -/
def takeDigits : Nat → List Char → Option (List Char × List Char)
  | 0, cs => some ([], cs)
  | _ + 1, [] => none
  | n + 1, c :: cs =>
    if c.isDigit then
      match takeDigits n cs with
      | some (ds, rest) => some (c :: ds, rest)
      | none => none
    else none

/-- JS `\s` whitespace class: ECMAScript WhiteSpace (tab, vertical tab,
form feed, space, no-break space, zero-width no-break space, and the
Unicode space-separator category) together with the LineTerminators
(line feed, carriage return, line separator, paragraph separator). -/
def isJsSpace (c : Char) : Bool :=
  c = ' ' || c = '\t' || c = '\n' || c = '\r' || c = '\x0b' || c = '\x0c' ||
  c = '\u00A0' || c = '\u1680' || ('\u2000' ≤ c && c ≤ '\u200A') ||
  c = '\u2028' || c = '\u2029' || c = '\u202F' || c = '\u205F' ||
  c = '\u3000' || c = '\uFEFF'

/-- Match `/\d{5}-\d{3}/` anchored at the current position, returning the
matched text. -/
def matchP1At (cs : List Char) : Option (List Char) :=
  match takeDigits 5 cs with
  | some (d5, rest) =>
    match rest with
    | '-' :: rest2 =>
      match takeDigits 3 rest2 with
      | some (d3, _) => some (d5 ++ '-' :: d3)
      | none => none
    | _ => none
  | none => none

/-- Match `/\d{8}/` anchored at the current position. -/
def matchP2At (cs : List Char) : Option (List Char) :=
  match takeDigits 8 cs with
  | some (d8, _) => some d8
  | none => none

/-- Match `/\d{5}\s+\d{3}/` anchored at the current position.  The greedy
`\s+` must consume the whole whitespace run: stopping short leaves a
whitespace character where `\d{3}` must match, so no backtracking case
survives. -/
def matchP3At (cs : List Char) : Option (List Char) :=
  match takeDigits 5 cs with
  | some (d5, rest) =>
    let ws := rest.takeWhile isJsSpace
    let rest2 := rest.dropWhile isJsSpace
    if ws.length = 0 then none
    else
      match takeDigits 3 rest2 with
      | some (d3, _) => some (d5 ++ ws ++ d3)
      | none => none
  | none => none

/-- JS regex search: the leftmost position where the anchored matcher
succeeds (as `String.prototype.match` with a non-global regex). -/
def findMatch (f : List Char → Option (List Char)) : List Char → Option (List Char)
  | [] => f []
  | c :: cs =>
    match f (c :: cs) with
    | some m => some m
    | none => findMatch f cs

/-- One iteration of the pattern loop: if the pattern matched, strip the
non-digits from the matched text and keep it when exactly 8 digits
remain (`cleanZipCode.length === 8`); otherwise fall through. -/
def patResult (m : Option (List Char)) : Option String :=
  match m with
  | some t =>
    let clean := t.filter Char.isDigit
    if clean.length = 8 then some (String.mk clean) else none
  | none => none

/-- The `for (const pattern of zipCodePatterns)` loop of
`extractZipCode`: try `\d{5}-\d{3}`, then `\d{8}`, then
`\d{5}\s+\d{3}`, returning the first hit that cleans to 8 digits. -/
def firstPatternHit (s : List Char) : Option String :=
  match patResult (findMatch matchP1At s) with
  | some r => some r
  | none =>
    match patResult (findMatch matchP2At s) with
    | some r => some r
    | none => patResult (findMatch matchP3At s)

/-- Embeds `extractZipCode` (src/common/utils/zipcode.ts, lines 57-88). -/
def extractZipCode (input : String) : Option String :=
  let numbers := extractNumbers input.data
  if numbers.length = 8 then some (String.mk numbers)
  else if 8 < numbers.length then firstPatternHit input.data
  else none

example : extractZipCode "01310-100" = some "01310100" := by decide
example : extractZipCode "01310 100" = some "01310100" := by decide
example : extractZipCode "1234567890" = some "12345678" := by decide
example : extractZipCode "1234 5678 9123" = none := by decide
example : extractZipCode "12345\u00A06789" = some "12345678" := by decide

/-! ## Brasil API provider (src/server/provider/brasil-api.ts)

Each `makeRequest` HTTP round trip is modelled by an `Oracle` field:
`Except.ok` is a parsed 2xx JSON body, `Except.error e` is a thrown
error whose message is `e` (timeout, non-2xx, network failure, 404).
The provider functions add their own validation on top, exactly as in
the source. -/

/-- Embeds `ZipCodeResult` (brasil-api.ts, lines 42-48). -/
structure ZipCodeResult where
  cep : String
  state : String
  city : String
  neighborhood : String
  street : String
deriving DecidableEq, Repr

/-- Embeds `CitySearchResult` (brasil-api.ts, lines 22-26). -/
structure CitySearchResult where
  id : Int
  nome : String
  estado : String
deriving DecidableEq, Repr

/-- One entry of `WeatherForecastResult.clima` (brasil-api.ts, lines 32-39). -/
structure WeatherDay where
  data : String
  condition : String
  condicao_desc : String
  min : Int
  max : Int
  indice_uv : Int
deriving DecidableEq, Repr

/-- Embeds `WeatherForecastResult` (brasil-api.ts, lines 28-40). -/
structure WeatherForecastResult where
  cidade : String
  estado : String
  atualizado_em : String
  clima : List WeatherDay
deriving DecidableEq, Repr

/-- The network: the outcome of every `makeRequest` call the engine can
issue, indexed by the request's identifying argument. -/
structure Oracle where
  postcodeRaw : String → Except String ZipCodeResult
  searchCityRaw : String → Except String (List CitySearchResult)
  forecastRaw : Int → Except String WeatherForecastResult

/-- Embeds `postcode` (brasil-api.ts, lines 163-186): the raw request followed
by the required-field validation `!result.cep || !result.state ||
!result.city`. -/
def postcode (o : Oracle) (zipcode : String) : Except String ZipCodeResult :=
  match o.postcodeRaw zipcode with
  | .error e => .error e
  | .ok r =>
    if r.cep = "" ∨ r.state = "" ∨ r.city = "" then .error "Dados incompletos da API"
    else .ok r

/-- Embeds `searchCity` (brasil-api.ts, lines 116-132): the raw request, no
validation and no filtering at this layer. -/
def searchCity (o : Oracle) (cityName : String) : Except String (List CitySearchResult) :=
  o.searchCityRaw cityName

/-- Embeds `forecast` (brasil-api.ts, lines 137-158): the raw request followed
by the required-field validation `!result.cidade || !result.estado ||
!result.clima` (in the typed model `clima` is always a present array,
so only the two string fields can be falsy). -/
def forecast (o : Oracle) (cityCode : Int) : Except String WeatherForecastResult :=
  match o.forecastRaw cityCode with
  | .error e => .error e
  | .ok r =>
    if r.cidade = "" ∨ r.estado = "" then .error "Dados incompletos da API de previsão do tempo"
    else .ok r

/-- Return type of `searchCityAndForecast` (brasil-api.ts, lines 233-237). -/
structure SCFResult where
  cities : List CitySearchResult
  weather : Option WeatherForecastResult
  multipleCities : Bool
deriving DecidableEq, Repr

/-- The state filter of `searchCityAndForecast` (brasil-api.ts, lines
253-261): `if (stateName && cities.length > 0)` filter by exact or
case-insensitive state match, else keep the list unchanged. -/
def applyStateFilter (cities : List CitySearchResult) (stateName : Option String) :
    List CitySearchResult :=
  if jsTruthyS stateName && !cities.isEmpty then
    cities.filter (fun c =>
      c.estado == jsArgString stateName ||
      c.estado.toLower == (jsArgString stateName).toLower)
  else cities

/-- Embeds `searchCityAndForecast` (brasil-api.ts, lines 228-293): search, early
return on zero candidates, state filter, the multiple-cities decision
`filteredCities.length > 1 && !stateName`, and on a single candidate a
forecast call whose failure is caught and degrades to a result without
weather. -/
def searchCityAndForecast (o : Oracle) (cityName : String) (stateName : Option String) :
    Except String SCFResult :=
  match searchCity o cityName with
  | .error e => .error e
  | .ok cities =>
    if cities.length = 0 then .ok ⟨[], none, false⟩
    else
      if 1 < (applyStateFilter cities stateName).length ∧ ¬ jsTruthyS stateName then
        .ok ⟨applyStateFilter cities stateName, none, true⟩
      else
        match applyStateFilter cities stateName with
        | [c] =>
          match forecast o c.id with
          | .ok w => .ok ⟨[c], some w, false⟩
          | .error _ => .ok ⟨[c], none, false⟩
        | rest => .ok ⟨rest, none, false⟩

/-- Return type of `postcodeAndForecast` (brasil-api.ts, lines 302-305). -/
structure PFResult where
  zipcode : ZipCodeResult
  weather : Option WeatherForecastResult
deriving DecidableEq, Repr

/-- Embeds `postcodeAndForecast` (brasil-api.ts, lines 298-333): the address
lookup, then a city-and-forecast lookup for the address's city and
state whose failure is caught and degrades to an address-only result.
A failure of the address lookup itself propagates. -/
def postcodeAndForecast (o : Oracle) (zipcode : String) : Except String PFResult :=
  match postcode o zipcode with
  | .error e => .error e
  | .ok z =>
    match searchCityAndForecast o z.city (some z.state) with
    | .ok r => .ok ⟨z, r.weather⟩
    | .error _ => .ok ⟨z, none⟩

/-! ## The `SISTEMA_INTELIGENTE` resolution engine
(src/server/tools.ts, second revision, lines 1166-1576) -/

/-- The interpretation object: either the AI structured output (fields
`tipo`, `cidade`, `estado`, `contextual`; no `cep` property, so reading
it yields `undefined` = `none`) or the fallback object built at lines
1299-1311 (which also carries `cep`). -/
structure Interp where
  tipo : String
  cidade : Option String
  estado : Option String
  contextual : Bool
  cep : Option String
deriving DecidableEq, Repr

/-- The results of the five deterministic text extractors on the current
`userInput` (tools.ts lines 1286-1288 and the in-scenario calls at lines
1394, 1399, 1490-1491, 1494, 1500).  `extractedZipCode` is
`extractZipCode userInput`; the other four extractors
(`hasWeatherKeyword`, `isContextualWeatherQuery`, `extractCityAndState`,
`extractBestCityName`) depend on keyword lists (`WEATHER_KEYWORDS`,
`NON_CITY_WORDS`) that are not part of the repository snapshot, so their
values on the current input are taken as inputs here and the theorems
quantify over them. -/
structure Analysis where
  extractedZipCode : Option String
  hasWeatherRequest : Bool
  isContextualQuery : Bool
  cityAndState : Option (String × String)
  bestCityName : Option String
deriving DecidableEq, Repr

/-- The fallback interpretation (tools.ts lines 1299-1311): derived
purely from extractor output when the AI call failed, timed out or is
not configured. -/
def fallbackInterpretation (a : Analysis) : Interp :=
  { tipo :=
      if jsTruthyS a.extractedZipCode then
        if a.hasWeatherRequest then "CEP_E_CLIMA" else "CEP"
      else
        if a.hasWeatherRequest then "CLIMA" else "OUTROS"
    cidade := none
    estado := none
    contextual := a.isContextualQuery
    cep := a.extractedZipCode }

/-- Embeds `aiInterpretation?.object` fallback choice (tools.ts line 1299): the AI
object when the AI call succeeded, else the fallback. -/
def interpretationOf (ai : Option Interp) (a : Analysis) : Interp :=
  ai.getD (fallbackInterpretation a)

/-- The `ACTIONS` constant object (src/common/consts/constants.ts, lines
1-20), modelled as a JS property lookup: reading a key that the object
does not define — such as `CONTEXT_QUERY`, used at tools.ts line 1542 —
yields `undefined` (`none`). -/
def ACTIONS (key : String) : Option String :=
  if key = "CONSULT_ZIP_CODE" then some "CONSULT_ZIP_CODE"
  else if key = "CONSULT_ZIP_CODE_AND_WEATHER" then some "CONSULT_ZIP_CODE_AND_WEATHER"
  else if key = "CONSULT_WEATHER_DIRECT" then some "CONSULT_WEATHER_DIRECT"
  else if key = "REQUEST_ZIP_CODE" then some "REQUEST_ZIP_CODE"
  else if key = "REQUEST_LOCATION" then some "REQUEST_LOCATION"
  else if key = "OUT_OF_SCOPE" then some "OUT_OF_SCOPE"
  else if key = "MULTIPLE_CITIES" then some "MULTIPLE_CITIES"
  else if key = "CITY_NOT_FOUND" then some "CITY_NOT_FOUND"
  else none

/-- The engine's `zipCodeData` payload (tools.ts lines 1326-1332 and
1368-1374, identical mappings). -/
structure ZipData where
  zipcode : String
  state : String
  city : String
  neighborhood : String
  street : String
deriving DecidableEq, Repr

/-- One mapped day of the engine's `weatherData` payload. -/
structure WeatherDayOut where
  date : String
  condition : String
  conditionDescription : String
  minimum : Int
  maximum : Int
  uvIndex : Int
deriving DecidableEq, Repr

/-- The engine's `weatherData` payload (tools.ts lines 1335-1347,
1435-1448, 1513-1525, identical mappings). -/
structure WeatherData where
  city : String
  state : String
  updatedAt : String
  weather : List WeatherDayOut
deriving DecidableEq, Repr

/-- One entry of the engine's `citiesFound` payload (tools.ts lines
1422-1426). -/
structure CityFound where
  id : Int
  name : String
  state : String
deriving DecidableEq, Repr

/-- The value returned by `execute` (tools.ts lines 1566-1574).  The
`action` field is a JS string-or-undefined because line 1542 assigns
`ACTIONS.CONTEXT_QUERY`, a property the `ACTIONS` object does not
define. -/
structure Outcome where
  initialMessage : String
  executedAction : String
  finalMessage : String
  action : Option String
  zipCodeData : Option ZipData
  weatherData : Option WeatherData
  citiesFound : Option (List CityFound)
deriving DecidableEq, Repr

/-- The local variables as initialised at tools.ts lines 1180-1188:
empty strings and `undefined` payloads. -/
def initialOutcome : Outcome :=
  { initialMessage := ""
    executedAction := ""
    finalMessage := ""
    action := some ""
    zipCodeData := none
    weatherData := none
    citiesFound := none }

/-- The `zipCodeData` mapping (tools.ts lines 1326-1332 / 1368-1374). -/
def mapZipData (z : ZipCodeResult) : ZipData :=
  { zipcode := z.cep
    state := z.state
    city := z.city
    neighborhood := strOrDefault z.neighborhood "Não informado"
    street := strOrDefault z.street "Não informado" }

/-- The `weatherData` mapping (tools.ts lines 1335-1347 and twins). -/
def mapWeatherData (w : WeatherForecastResult) : WeatherData :=
  { city := w.cidade
    state := w.estado
    updatedAt := strOrDefault w.atualizado_em "Não informado"
    weather := w.clima.map (fun d =>
      { date := strOrDefault d.data "Não informado"
        condition := strOrDefault d.condition "Não informado"
        conditionDescription := strOrDefault d.condicao_desc "Não informado"
        minimum := jsNumOr d.min 0
        maximum := jsNumOr d.max 0
        uvIndex := jsNumOr d.indice_uv 0 }) }

/-- The `citiesFound` mapping (tools.ts lines 1422-1426). -/
def mapCityFound (c : CitySearchResult) : CityFound :=
  { id := c.id, name := c.nome, state := c.estado }

/-- A JS `try { body } catch (e) { handler }` whose handler always
completes normally: a thrown error becomes the handler's outcome. -/
def tryCatchE (body : Except String Outcome) (handler : String → Outcome) :
    Except String Outcome :=
  match body with
  | .ok r => .ok r
  | .error e => .ok (handler e)

/-- Embeds `const cepToUse = interpretation.cep || extractedZipCode`
(tools.ts lines 1322 and 1365). -/
def cepToUseOf (i : Interp) (a : Analysis) : Option String :=
  jsOrS i.cep a.extractedZipCode

/-- Scenario 1 (`CEP_E_CLIMA`) success handling, tools.ts lines
1323-1355: `zipCodeData` is always populated from the successful address
lookup; `action` and the messages are set only when a forecast was also
obtained. -/
def scenario1Success (result : PFResult) : Outcome :=
  match result.weather with
  | some w =>
    { initialMessage := "✅ Consultei tanto o CEP quanto a previsão do tempo!"
      executedAction := "Consulta de CEP e previsão do tempo"
      finalMessage := "Dados obtidos com sucesso da Brasil API."
      action := ACTIONS "CONSULT_ZIP_CODE_AND_WEATHER"
      zipCodeData := some (mapZipData result.zipcode)
      weatherData := some (mapWeatherData w)
      citiesFound := none }
  | none => { initialOutcome with zipCodeData := some (mapZipData result.zipcode) }

/-- Scenario 1 catch handler (tools.ts lines 1356-1361). -/
def scenario1Handler (e : String) : Outcome :=
  { initialOutcome with
      action := ACTIONS "OUT_OF_SCOPE"
      executedAction := "Erro na consulta"
      initialMessage := "❌ Erro ao consultar CEP e previsão: " ++ e
      finalMessage := "Tente novamente ou consulte um CEP válido." }

/-- Scenario 1: CEP and weather in the same message (tools.ts lines
1316-1362). -/
def scenario1E (o : Oracle) (i : Interp) (a : Analysis) : Except String Outcome :=
  tryCatchE
    (match postcodeAndForecast o (jsArgString (cepToUseOf i a)) with
     | .error e => .error e
     | .ok result => .ok (scenario1Success result))
    scenario1Handler

/-- Scenario 2 success outcome (tools.ts lines 1367-1379). -/
def scenario2Success (data : ZipCodeResult) : Outcome :=
  { initialOutcome with
      zipCodeData := some (mapZipData data)
      action := ACTIONS "CONSULT_ZIP_CODE"
      executedAction := "Consulta de CEP"
      initialMessage := "✅ Encontrei as informações do CEP!"
      finalMessage := "Dados obtidos da Brasil API." }

/-- Scenario 2 catch handler (tools.ts lines 1380-1385). -/
def scenario2Handler (e : String) : Outcome :=
  { initialOutcome with
      action := ACTIONS "OUT_OF_SCOPE"
      executedAction := "Erro na consulta de CEP"
      initialMessage := "❌ Erro ao consultar o CEP: " ++ e
      finalMessage := "Verifique se o CEP está correto e tente novamente." }

/-- Scenario 2: CEP only (tools.ts lines 1364-1386), calling
`getZipCodeInfo` = `postcode`. -/
def scenario2E (o : Oracle) (i : Interp) (a : Analysis) : Except String Outcome :=
  tryCatchE
    (match postcode o (jsArgString (cepToUseOf i a)) with
     | .error e => .error e
     | .ok data => .ok (scenario2Success data))
    scenario2Handler

/-- City-name resolution of scenario 3 (tools.ts lines 1390-1401):
prefer the AI-supplied city (with the AI state), else
`extractCityAndState`, else `extractBestCityName` keeping the AI
state. -/
def resolveCity3 (i : Interp) (a : Analysis) : Option String × Option String :=
  if jsTruthyS i.cidade then (i.cidade, i.estado)
  else
    match a.cityAndState with
    | some cs => (some cs.1, some cs.2)
    | none => (a.bestCityName, i.estado)

/-- Scenario 3 multiple-cities outcome (tools.ts lines 1421-1432): the
whole candidate list is attached, in the provider's order. -/
def multipleCitiesOutcome (cityName : String) (result : SCFResult) : Outcome :=
  { initialOutcome with
      citiesFound := some (result.cities.map mapCityFound)
      action := ACTIONS "MULTIPLE_CITIES"
      executedAction := "Múltiplas cidades encontradas"
      initialMessage := "🏙️ Encontrei várias cidades chamadas \"" ++ cityName ++ "\". Qual você deseja?"
      finalMessage := "Por favor, seja mais específico ou mencione o estado." }

/-- Scenario 3 single-city-with-forecast outcome (tools.ts lines
1433-1453). -/
def weatherDirectOutcome (w : WeatherForecastResult) : Outcome :=
  { initialOutcome with
      weatherData := some (mapWeatherData w)
      action := ACTIONS "CONSULT_WEATHER_DIRECT"
      executedAction := "Consulta de previsão do tempo"
      initialMessage := "🌤️ Encontrei a previsão do tempo!"
      finalMessage := "Dados obtidos da API CPTEC/Brasil API." }

/-- Scenario 3 city-not-found outcome (tools.ts lines 1454-1468, both
the no-forecast and the zero-candidates branch). -/
def cityNotFoundOutcome (cityName : String) : Outcome :=
  { initialOutcome with
      action := ACTIONS "CITY_NOT_FOUND"
      executedAction := "Cidade não encontrada"
      initialMessage := "❌ Não encontrei a cidade \"" ++ cityName ++ "\" na base de dados do CPTEC."
      finalMessage := "🔍 Tente com: nome completo da cidade, incluir o estado (ex: \x27São Paulo/SP\x27) ou verificar a grafia." }

/-- Scenario 3 catch handler (tools.ts lines 1469-1474). -/
def scenario3Handler (e : String) : Outcome :=
  { initialOutcome with
      action := ACTIONS "OUT_OF_SCOPE"
      executedAction := "Erro na consulta de clima"
      initialMessage := "❌ Erro ao consultar previsão do tempo: " ++ e
      finalMessage := "Tente novamente ou verifique o nome da cidade." }

/-- Scenario 3 request-location outcome (tools.ts lines 1475-1482). -/
def requestLocationOutcome : Outcome :=
  { initialOutcome with
      action := ACTIONS "REQUEST_LOCATION"
      executedAction := "Solicitação de localização"
      initialMessage := "🌤️ Para consultar a previsão do tempo, preciso saber a cidade."
      finalMessage := "Por favor, informe o nome da cidade (ex: \x27São Paulo\x27, \x27Rio de Janeiro\x27)." }

/-- Scenario 3: weather forecast (tools.ts lines 1387-1483). -/
def scenario3E (o : Oracle) (i : Interp) (a : Analysis) : Except String Outcome :=
  if jsTruthyS (resolveCity3 i a).1 then
    tryCatchE
      (match searchCityAndForecast o (jsArgString (resolveCity3 i a).1) (resolveCity3 i a).2 with
       | .error e => .error e
       | .ok result =>
         if 0 < result.cities.length then
           if result.multipleCities then
             .ok (multipleCitiesOutcome (jsArgString (resolveCity3 i a).1) result)
           else
             match result.weather with
             | some w => .ok (weatherDirectOutcome w)
             | none => .ok (cityNotFoundOutcome (jsArgString (resolveCity3 i a).1))
         else .ok (cityNotFoundOutcome (jsArgString (resolveCity3 i a).1)))
      scenario3Handler
  else .ok requestLocationOutcome

/-- Scenario 4 enriched-context forecast outcome (tools.ts lines
1512-1531). -/
def contextWeatherOutcome (w : WeatherForecastResult) : Outcome :=
  { initialOutcome with
      weatherData := some (mapWeatherData w)
      action := ACTIONS "CONSULT_WEATHER_DIRECT"
      executedAction := "Consulta de previsão com contexto"
      initialMessage := "🌤️ Usando o contexto anterior, encontrei a previsão do tempo!"
      finalMessage := "Dados obtidos da API CPTEC/Brasil API." }

/-- Scenario 4 catch handler (tools.ts lines 1533-1538). -/
def scenario4Handler (e : String) : Outcome :=
  { initialOutcome with
      action := ACTIONS "OUT_OF_SCOPE"
      executedAction := "Erro na consulta contextual"
      initialMessage := "❌ Erro ao processar consulta contextual: " ++ e
      finalMessage := "Tente ser mais específico sobre a cidade." }

/-- Scenario 4 pure-contextual clarification outcome (tools.ts lines
1539-1548): `action` is assigned `ACTIONS.CONTEXT_QUERY`, a property the
`ACTIONS` object does not define, so it becomes `undefined`. -/
def contextQueryOutcome : Outcome :=
  { initialOutcome with
      action := ACTIONS "CONTEXT_QUERY"
      executedAction := "Consulta contextual detectada"
      initialMessage := "🔍 Detectei que você quer saber sobre previsão do tempo, mas não especificou a cidade."
      finalMessage := "💡 Dica: Você pode perguntar \x27previsão\x27 após consultar um CEP, ou especificar a cidade diretamente (ex: \x27tempo em São Paulo\x27)." }

/-- City-name resolution of scenario 4 (tools.ts lines 1494-1501):
`extractCityAndState`, else `extractBestCityName`. -/
def resolveCity4 (a : Analysis) : Option String :=
  match a.cityAndState with
  | some cs => some cs.1
  | none => a.bestCityName

/-- Scenario 4: pure contextual query (tools.ts lines 1484-1548).  Note
that when the city search succeeds but yields no single forecast, the
code sets nothing at all, so the outcome stays at its initial state. -/
def scenario4E (o : Oracle) (a : Analysis) : Except String Outcome :=
  if jsTruthyS (resolveCity4 a) then
    tryCatchE
      (match searchCityAndForecast o (jsArgString (resolveCity4 a)) none with
       | .error e => .error e
       | .ok result =>
         if 0 < result.cities.length then
           match result.weather with
           | some w => .ok (contextWeatherOutcome w)
           | none => .ok initialOutcome
         else .ok initialOutcome)
      scenario4Handler
  else .ok contextQueryOutcome

/-- Scenario 5 out-of-scope outcome (tools.ts lines 1550-1558). -/
def outOfScopeOutcome : Outcome :=
  { initialOutcome with
      action := ACTIONS "OUT_OF_SCOPE"
      executedAction := "Consulta fora do escopo"
      initialMessage := "🤔 Não consegui identificar uma consulta de CEP ou previsão do tempo."
      finalMessage := "Tente algo como: \x27CEP 01310100\x27, \x27Tempo em São Paulo\x27 ou \x27Previsão em Tabatinga\x27." }

/-- Guard of scenario 1 (tools.ts lines 1317-1320). -/
def guard1 (i : Interp) (a : Analysis) : Bool :=
  i.tipo == "CEP_E_CLIMA" || (jsTruthyS a.extractedZipCode && a.hasWeatherRequest)

/-- Guard of scenario 2 (tools.ts line 1364). -/
def guard2 (i : Interp) (a : Analysis) : Bool :=
  i.tipo == "CEP" || jsTruthyS a.extractedZipCode

/-- Guard of scenario 3 (tools.ts line 1388). -/
def guard3 (i : Interp) (a : Analysis) : Bool :=
  i.tipo == "CLIMA" || a.hasWeatherRequest

/-- Guard of scenario 4 (tools.ts lines 1485-1492). -/
def guard4 (i : Interp) (a : Analysis) : Bool :=
  i.tipo == "CONTEXTUAL" || i.contextual || a.isContextualQuery ||
    (a.hasWeatherRequest && a.cityAndState.isNone && !(jsTruthyS a.bestCityName))

/-- The dispatch inside the engine's top-level `try` (tools.ts lines
1315-1558): the five-way else-if chain. -/
def executeBody (o : Oracle) (ai : Option Interp) (a : Analysis) : Except String Outcome :=
  if guard1 (interpretationOf ai a) a then scenario1E o (interpretationOf ai a) a
  else if guard2 (interpretationOf ai a) a then scenario2E o (interpretationOf ai a) a
  else if guard3 (interpretationOf ai a) a then scenario3E o (interpretationOf ai a) a
  else if guard4 (interpretationOf ai a) a then scenario4E o a
  else .ok outOfScopeOutcome

/-- The top-level catch handler (tools.ts lines 1559-1564). -/
def internalErrorOutcome : Outcome :=
  { initialOutcome with
      action := ACTIONS "OUT_OF_SCOPE"
      executedAction := "Erro interno"
      initialMessage := "❌ Ocorreu um erro interno."
      finalMessage := "Tente novamente em alguns instantes." }

/-- The engine's `execute` (tools.ts lines 1173-1575): the dispatch with
its top-level `try`/`catch` converting any escaped exception into the
generic internal-error outcome. -/
def execute (o : Oracle) (ai : Option Interp) (a : Analysis) : Outcome :=
  match executeBody o ai a with
  | .ok r => r
  | .error _ => internalErrorOutcome

/-! ## Helper lemmas -/

lemma tryCatchE_ok (b : Except String Outcome) (h : String → Outcome) :
    ∃ r, tryCatchE b h = Except.ok r := by
  cases b
  · exact ⟨_, rfl⟩
  · exact ⟨_, rfl⟩

lemma scenario1E_ok (o : Oracle) (i : Interp) (a : Analysis) :
    ∃ r, scenario1E o i a = Except.ok r :=
  tryCatchE_ok _ _

lemma scenario2E_ok (o : Oracle) (i : Interp) (a : Analysis) :
    ∃ r, scenario2E o i a = Except.ok r :=
  tryCatchE_ok _ _

lemma scenario3E_ok (o : Oracle) (i : Interp) (a : Analysis) :
    ∃ r, scenario3E o i a = Except.ok r := by
  unfold scenario3E
  split
  · exact tryCatchE_ok _ _
  · exact ⟨_, rfl⟩

lemma scenario4E_ok (o : Oracle) (a : Analysis) :
    ∃ r, scenario4E o a = Except.ok r := by
  unfold scenario4E
  split
  · exact tryCatchE_ok _ _
  · exact ⟨_, rfl⟩

lemma executeBody_ok (o : Oracle) (ai : Option Interp) (a : Analysis) :
    ∃ r, executeBody o ai a = Except.ok r := by
  unfold executeBody
  split
  · exact scenario1E_ok _ _ _
  · split
    · exact scenario2E_ok _ _ _
    · split
      · exact scenario3E_ok _ _ _
      · split
        · exact scenario4E_ok _ _
        · exact ⟨_, rfl⟩

lemma execute_eq_of_body (o : Oracle) (ai : Option Interp) (a : Analysis) (r : Outcome)
    (h : executeBody o ai a = Except.ok r) : execute o ai a = r := by
  unfold execute
  rw [h]

/-! ## Claim theorems -/

/-- Claim C5: for every user input (represented by its extractor
analysis), every AI-classification behaviour and every behaviour of the
external providers, the engine's `execute` returns a `ResolutionOutcome`
and never propagates an exception to its caller: the dispatch body never
ends in an uncaught error, and the top-level catch handler
(`internalErrorOutcome`) converts any escaped exception into the
`OUT_OF_SCOPE` outcome with the generic internal-error message. -/
theorem engine_never_throws (o : Oracle) (ai : Option Interp) (a : Analysis) :
    executeBody o ai a = Except.ok (execute o ai a) ∧
    internalErrorOutcome.action = some "OUT_OF_SCOPE" ∧
    internalErrorOutcome.initialMessage = "❌ Ocorreu um erro interno." := by
  obtain ⟨r, hr⟩ := executeBody_ok o ai a
  refine ⟨?_, rfl, rfl⟩
  rw [hr, execute_eq_of_body o ai a r hr]

/-- Claim C6: when the AI classification is unavailable, failed or timed
out (`ai = none`), the fallback `Interpretation` kind is exactly: ZIP
extracted and weather keyword present gives `CEP_E_CLIMA`
(ZIP_AND_FORECAST); ZIP alone gives `CEP` (ZIP); weather keyword alone
gives `CLIMA` (FORECAST); neither gives `OUTROS` (OUT_OF_SCOPE); and the
`isContextualWeatherQuery` result is carried as the `contextual` flag in
every case. -/
theorem fallback_interpretation_rule (a : Analysis) :
    ((interpretationOf none a).tipo = "CEP_E_CLIMA" ↔
      jsTruthyS a.extractedZipCode = true ∧ a.hasWeatherRequest = true) ∧
    ((interpretationOf none a).tipo = "CEP" ↔
      jsTruthyS a.extractedZipCode = true ∧ a.hasWeatherRequest = false) ∧
    ((interpretationOf none a).tipo = "CLIMA" ↔
      jsTruthyS a.extractedZipCode = false ∧ a.hasWeatherRequest = true) ∧
    ((interpretationOf none a).tipo = "OUTROS" ↔
      jsTruthyS a.extractedZipCode = false ∧ a.hasWeatherRequest = false) ∧
    (interpretationOf none a).contextual = a.isContextualQuery := by
  cases hz : jsTruthyS a.extractedZipCode <;> cases hw : a.hasWeatherRequest <;>
    simp [interpretationOf, fallbackInterpretation, hz, hw]

/-- The extractor analysis of a pure contextual input such as `"lá"`
when no AI is configured: no ZIP code, no weather keyword,
`isContextualWeatherQuery` true, and neither `extractCityAndState` nor
`extractBestCityName` finds a city. -/
def c2Analysis : Analysis :=
  { extractedZipCode := none
    hasWeatherRequest := false
    isContextualQuery := true
    cityAndState := none
    bestCityName := none }

/-- A network that refuses every request (scenario 4's clarification
branch issues no provider call, so this is irrelevant to the result). -/
def c2Oracle : Oracle :=
  { postcodeRaw := fun _ => .error "offline"
    searchCityRaw := fun _ => .error "offline"
    forecastRaw := fun _ => .error "offline" }

/-- Claim C2 (code bug): in the CONTEXTUAL scenario with no extractable
city the engine executes tools.ts line 1542, `action =
ACTIONS.CONTEXT_QUERY` — but the `ACTIONS` constant object defines no
`CONTEXT_QUERY` property, so the outcome's `action` is `undefined`
(`none`), not the distinct string tag `"CONTEXT_QUERY"` that the spec,
the frontend comparison and the tool's own output schema (`action:
z.string()`) expect.  The clarification messages are set as the claim
describes. -/
theorem context_query_action_is_undefined :
    ACTIONS "CONTEXT_QUERY" = none ∧
    (execute c2Oracle none c2Analysis).action = none ∧
    (execute c2Oracle none c2Analysis).executedAction = "Consulta contextual detectada" ∧
    (execute c2Oracle none c2Analysis).initialMessage =
      "🔍 Detectei que você quer saber sobre previsão do tempo, mas não especificou a cidade." ∧
    (execute c2Oracle none c2Analysis).finalMessage =
      "💡 Dica: Você pode perguntar \x27previsão\x27 após consultar um CEP, ou especificar a cidade diretamente (ex: \x27tempo em São Paulo\x27)." :=
  ⟨rfl, rfl, rfl, rfl, rfl⟩

lemma postcodeAndForecast_ok_of_postcode (o : Oracle) (zip : String) (z : ZipCodeResult)
    (hp : postcode o zip = Except.ok z) :
    ∃ w, postcodeAndForecast o zip = Except.ok ⟨z, w⟩ := by
  cases h : searchCityAndForecast o z.city (some z.state) with
  | error e => exact ⟨none, by simp only [postcodeAndForecast, hp, h]⟩
  | ok r => exact ⟨r.weather, by simp only [postcodeAndForecast, hp, h]⟩

/-- Claim C1: in the combined ZIP-and-forecast scenario, whenever the
address lookup (`postcode`) succeeds, the outcome is returned
successfully — no exception escapes — with `zipCodeData` populated from
the successful address lookup, regardless of how the subsequent
city-search and forecast steps behave (the oracle is universally
quantified, covering failures and empty results). -/
theorem zip_and_forecast_degrade_not_discard
    (o : Oracle) (ai : Option Interp) (a : Analysis) (z : ZipCodeResult)
    (hg : guard1 (interpretationOf ai a) a = true)
    (hp : postcode o (jsArgString (cepToUseOf (interpretationOf ai a) a)) = Except.ok z) :
    executeBody o ai a = Except.ok (execute o ai a) ∧
    (execute o ai a).zipCodeData = some (mapZipData z) := by
  obtain ⟨w, hw⟩ := postcodeAndForecast_ok_of_postcode o _ z hp
  have hb : executeBody o ai a = Except.ok (scenario1Success ⟨z, w⟩) := by
    unfold executeBody
    rw [if_pos hg]
    unfold scenario1E
    rw [hw]
    rfl
  have hx := execute_eq_of_body o ai a _ hb
  refine ⟨by rw [hb, hx], ?_⟩
  rw [hx]
  cases w
  · rfl
  · rfl

/-- Claim C10: in the combined ZIP-and-forecast scenario, whenever the
address lookup succeeds but no forecast was obtained (the city search
failed, returned zero or several candidates, or the forecast call
failed — all the cases in which `postcodeAndForecast` returns an
address-only result), the outcome carries the populated `zipCodeData`
while `action`, `initialMessage`, `executedAction` and `finalMessage`
all remain the empty string: the degraded outcome is the untouched
initial state plus the address record. -/
theorem zip_and_forecast_degraded_outcome_is_blank
    (o : Oracle) (ai : Option Interp) (a : Analysis) (z : ZipCodeResult)
    (hg : guard1 (interpretationOf ai a) a = true)
    (hp : postcodeAndForecast o (jsArgString (cepToUseOf (interpretationOf ai a) a)) =
      Except.ok ⟨z, none⟩) :
    execute o ai a = { initialOutcome with zipCodeData := some (mapZipData z) } := by
  have hb : executeBody o ai a =
      Except.ok { initialOutcome with zipCodeData := some (mapZipData z) } := by
    unfold executeBody
    rw [if_pos hg]
    unfold scenario1E
    rw [hp]
    rfl
  exact execute_eq_of_body o ai a _ hb

/-- Claim C7: in the ZIP-only scenario (scenario 2 reached: the combined
guard failed, the ZIP guard holds), a successful address lookup yields
action `CONSULT_ZIP_CODE` with the address record populated and no
forecast record; a failed address lookup yields action `OUT_OF_SCOPE`
with an error-describing message; and in either case no exception
escapes the scenario boundary. -/
theorem zip_only_scenario_behaviour
    (o : Oracle) (ai : Option Interp) (a : Analysis)
    (hg1 : guard1 (interpretationOf ai a) a = false)
    (hg2 : guard2 (interpretationOf ai a) a = true) :
    executeBody o ai a = Except.ok (execute o ai a) ∧
    (∀ z, postcode o (jsArgString (cepToUseOf (interpretationOf ai a) a)) = Except.ok z →
      (execute o ai a).action = some "CONSULT_ZIP_CODE" ∧
      (execute o ai a).zipCodeData = some (mapZipData z) ∧
      (execute o ai a).weatherData = none) ∧
    (∀ e, postcode o (jsArgString (cepToUseOf (interpretationOf ai a) a)) = Except.error e →
      (execute o ai a).action = some "OUT_OF_SCOPE" ∧
      (execute o ai a).initialMessage = "❌ Erro ao consultar o CEP: " ++ e ∧
      (execute o ai a).zipCodeData = none ∧
      (execute o ai a).weatherData = none) := by
  have hb : executeBody o ai a = scenario2E o (interpretationOf ai a) a := by
    unfold executeBody
    rw [if_neg (by simp [hg1]), if_pos hg2]
  refine ⟨?_, ?_, ?_⟩
  · obtain ⟨r, hr⟩ := scenario2E_ok o (interpretationOf ai a) a
    rw [hb, hr, execute_eq_of_body o ai a r (hb.trans hr)]
  · intro z hz
    have hr : executeBody o ai a = Except.ok (scenario2Success z) := by
      rw [hb]
      unfold scenario2E
      rw [hz]
      rfl
    rw [execute_eq_of_body o ai a _ hr]
    exact ⟨rfl, rfl, rfl⟩
  · intro e he
    have hr : executeBody o ai a = Except.ok (scenario2Handler e) := by
      rw [hb]
      unfold scenario2E
      rw [he]
      rfl
    rw [execute_eq_of_body o ai a _ hr]
    exact ⟨rfl, rfl, rfl, rfl⟩

/-- A successful address record for `01310100`. -/
def c1Zip : ZipCodeResult :=
  { cep := "01310100"
    state := "SP"
    city := "São Paulo"
    neighborhood := "Bela Vista"
    street := "Avenida Paulista" }

/-- A network where the address lookup succeeds and every later call
fails: the combined scenario must still degrade, not discard. -/
def c1Oracle : Oracle :=
  { postcodeRaw := fun _ => .ok c1Zip
    searchCityRaw := fun _ => .error "Erro na busca de cidades: network down"
    forecastRaw := fun _ => .error "offline" }

/-- Extractor analysis of an input like `"CEP 01310100 e previsão"`. -/
def c1Analysis : Analysis :=
  { extractedZipCode := some "01310100"
    hasWeatherRequest := true
    isContextualQuery := false
    cityAndState := none
    bestCityName := none }

theorem zip_and_forecast_degrade_not_discard_witness :
    guard1 (interpretationOf none c1Analysis) c1Analysis = true ∧
    postcode c1Oracle (jsArgString (cepToUseOf (interpretationOf none c1Analysis) c1Analysis)) =
      Except.ok c1Zip ∧
    (execute c1Oracle none c1Analysis).zipCodeData = some (mapZipData c1Zip) :=
  ⟨rfl, rfl, (zip_and_forecast_degrade_not_discard c1Oracle none c1Analysis c1Zip rfl rfl).2⟩

/-- Same address record, used for the degraded-outcome claim. -/
def c10Zip : ZipCodeResult :=
  { cep := "01310100"
    state := "SP"
    city := "São Paulo"
    neighborhood := ""
    street := "" }

/-- Address lookup succeeds, the city search returns zero candidates:
`postcodeAndForecast` yields an address-only result. -/
def c10Oracle : Oracle :=
  { postcodeRaw := fun _ => .ok c10Zip
    searchCityRaw := fun _ => .ok []
    forecastRaw := fun _ => .error "offline" }

/-- Extractor analysis of an input like `"CEP 01310100 e previsão"`. -/
def c10Analysis : Analysis :=
  { extractedZipCode := some "01310100"
    hasWeatherRequest := true
    isContextualQuery := false
    cityAndState := none
    bestCityName := none }

theorem zip_and_forecast_degraded_outcome_is_blank_witness :
    guard1 (interpretationOf none c10Analysis) c10Analysis = true ∧
    postcodeAndForecast c10Oracle
        (jsArgString (cepToUseOf (interpretationOf none c10Analysis) c10Analysis)) =
      Except.ok ⟨c10Zip, none⟩ ∧
    execute c10Oracle none c10Analysis =
      { initialOutcome with zipCodeData := some (mapZipData c10Zip) } :=
  ⟨rfl, rfl, zip_and_forecast_degraded_outcome_is_blank c10Oracle none c10Analysis c10Zip rfl rfl⟩

/-- Address record for the ZIP-only scenario witness. -/
def c7Zip : ZipCodeResult :=
  { cep := "01310100"
    state := "SP"
    city := "São Paulo"
    neighborhood := "Bela Vista"
    street := "Avenida Paulista" }

/-- A network whose address lookup succeeds. -/
def c7Oracle : Oracle :=
  { postcodeRaw := fun _ => .ok c7Zip
    searchCityRaw := fun _ => .error "offline"
    forecastRaw := fun _ => .error "offline" }

/-- Extractor analysis of an input like `"CEP 01310-100"`: a ZIP code
and no weather keyword. -/
def c7Analysis : Analysis :=
  { extractedZipCode := some "01310100"
    hasWeatherRequest := false
    isContextualQuery := false
    cityAndState := none
    bestCityName := none }

lemma applyStateFilter_no_state (cities : List CitySearchResult) (st : Option String)
    (hstate : jsTruthyS st = false) : applyStateFilter cities st = cities := by
  unfold applyStateFilter
  rw [hstate]
  rfl

lemma searchCityAndForecast_multiple (o : Oracle) (city : String) (st : Option String)
    (cs : List CitySearchResult)
    (hsearch : o.searchCityRaw city = Except.ok cs)
    (hstate : jsTruthyS st = false)
    (hlen : 1 < cs.length) :
    searchCityAndForecast o city st = Except.ok ⟨cs, none, true⟩ := by
  have hf := applyStateFilter_no_state cs st hstate
  have h0 : ¬ cs.length = 0 := by omega
  simp only [searchCityAndForecast, searchCity, hsearch, hf, if_neg h0]
  rw [if_pos ⟨hlen, by rw [hstate]; simp⟩]

theorem zip_only_scenario_behaviour_witness :
    guard1 (interpretationOf none c7Analysis) c7Analysis = false ∧
    guard2 (interpretationOf none c7Analysis) c7Analysis = true ∧
    (execute c7Oracle none c7Analysis).action = some "CONSULT_ZIP_CODE" ∧
    (execute c7Oracle none c7Analysis).zipCodeData = some (mapZipData c7Zip) ∧
    (execute c7Oracle none c7Analysis).weatherData = none :=
  ⟨rfl, rfl,
    ((zip_only_scenario_behaviour c7Oracle none c7Analysis rfl rfl).2.1 c7Zip rfl).1,
    ((zip_only_scenario_behaviour c7Oracle none c7Analysis rfl rfl).2.1 c7Zip rfl).2.1,
    ((zip_only_scenario_behaviour c7Oracle none c7Analysis rfl rfl).2.1 c7Zip rfl).2.2⟩

/-- Six homonymous city candidates, as the city-search provider may
return them. -/
def c3Cities : List CitySearchResult :=
  [⟨3548, "Ibitinga", "SP"⟩, ⟨1201, "Ibitinga", "BA"⟩, ⟨2202, "Ibitinga", "MG"⟩,
   ⟨4303, "Ibitinga", "RS"⟩, ⟨5404, "Ibitinga", "PR"⟩, ⟨6505, "Ibitinga", "CE"⟩]

/-- A network whose city search returns the six candidates. -/
def c3Oracle : Oracle :=
  { postcodeRaw := fun _ => .error "offline"
    searchCityRaw := fun _ => .ok c3Cities
    forecastRaw := fun _ => .error "offline" }

/-- Extractor analysis of an input like `"tempo em Ibitinga"`: weather
keyword present, city name extracted, no state. -/
def c3Analysis : Analysis :=
  { extractedZipCode := none
    hasWeatherRequest := true
    isContextualQuery := false
    cityAndState := none
    bestCityName := some "Ibitinga" }

/-- Claim C3 counterexample: with six provider candidates and no state
filter, the `MULTIPLE_CITIES` outcome attaches all six candidates — the
claimed cap at the first 5 does not exist in the resolution engine. -/
theorem multiple_cities_attaches_six_candidates :
    (execute c3Oracle none c3Analysis).action = some "MULTIPLE_CITIES" ∧
    ((execute c3Oracle none c3Analysis).citiesFound.getD []).length = 6 :=
  ⟨rfl, rfl⟩

/-- Claim C3 as amended: in a forecast-kind resolution where the city
search returns more than one candidate and no state was supplied, the
outcome's action is `MULTIPLE_CITIES` and the attached candidate list
contains ALL candidates, in the provider's native order (never
re-sorted, and not capped at 5 — the 5-cap exists only in a separate
chat tool's message formatting, not in this engine). -/
theorem multiple_cities_full_native_list
    (o : Oracle) (ai : Option Interp) (a : Analysis) (cs : List CitySearchResult)
    (hg1 : guard1 (interpretationOf ai a) a = false)
    (hg2 : guard2 (interpretationOf ai a) a = false)
    (hg3 : guard3 (interpretationOf ai a) a = true)
    (hcity : jsTruthyS (resolveCity3 (interpretationOf ai a) a).1 = true)
    (hstate : jsTruthyS (resolveCity3 (interpretationOf ai a) a).2 = false)
    (hsearch : o.searchCityRaw (jsArgString (resolveCity3 (interpretationOf ai a) a).1) =
      Except.ok cs)
    (hlen : 1 < cs.length) :
    (execute o ai a).action = some "MULTIPLE_CITIES" ∧
    (execute o ai a).citiesFound = some (cs.map mapCityFound) := by
  have hs := searchCityAndForecast_multiple o _ _ cs hsearch hstate hlen
  have h0 : 0 < cs.length := by omega
  have hb : executeBody o ai a =
      Except.ok (multipleCitiesOutcome
        (jsArgString (resolveCity3 (interpretationOf ai a) a).1) ⟨cs, none, true⟩) := by
    simp only [executeBody, hg1, hg2, hg3, Bool.false_eq_true, if_false, if_true,
      scenario3E, hcity, hs, tryCatchE, if_pos h0]
  rw [execute_eq_of_body o ai a _ hb]
  exact ⟨rfl, rfl⟩

theorem multiple_cities_full_native_list_witness :
    guard1 (interpretationOf none c3Analysis) c3Analysis = false ∧
    guard2 (interpretationOf none c3Analysis) c3Analysis = false ∧
    guard3 (interpretationOf none c3Analysis) c3Analysis = true ∧
    jsTruthyS (resolveCity3 (interpretationOf none c3Analysis) c3Analysis).1 = true ∧
    jsTruthyS (resolveCity3 (interpretationOf none c3Analysis) c3Analysis).2 = false ∧
    c3Oracle.searchCityRaw
        (jsArgString (resolveCity3 (interpretationOf none c3Analysis) c3Analysis).1) =
      Except.ok c3Cities ∧
    1 < c3Cities.length ∧
    (execute c3Oracle none c3Analysis).citiesFound = some (c3Cities.map mapCityFound) :=
  ⟨rfl, rfl, rfl, rfl, rfl, rfl, by decide,
    (multiple_cities_full_native_list c3Oracle none c3Analysis c3Cities rfl rfl rfl rfl rfl rfl
      (by decide)).2⟩

lemma applyStateFilter_nil (st : Option String) : applyStateFilter [] st = [] := by
  unfold applyStateFilter
  cases h : jsTruthyS st <;> simp

lemma searchCityAndForecast_single_forecast_error (o : Oracle) (city : String)
    (st : Option String) (cs : List CitySearchResult) (c : CitySearchResult) (e : String)
    (hsearch : o.searchCityRaw city = Except.ok cs)
    (hfilter : applyStateFilter cs st = [c])
    (hforecast : o.forecastRaw c.id = Except.error e) :
    searchCityAndForecast o city st = Except.ok ⟨[c], none, false⟩ := by
  have hne : ¬ cs.length = 0 := by
    intro h
    rw [List.length_eq_zero.mp h, applyStateFilter_nil] at hfilter
    exact List.cons_ne_nil c [] hfilter.symm
  have hmul : ¬ (1 < (applyStateFilter cs st).length ∧ ¬ jsTruthyS st = true) := by
    rw [hfilter]
    simp
  have hf : forecast o c.id = Except.error e := by
    unfold forecast
    rw [hforecast]
  simp only [searchCityAndForecast, searchCity, hsearch, if_neg hne, if_neg hmul, hfilter, hf]
  rw [if_neg (by simp)]

/-- Claim C8: in a forecast-kind resolution in which the city search
succeeded and the state filter narrowed the candidates to exactly one,
but the forecast call for that candidate fails, the outcome is the
`CITY_NOT_FOUND` clarification (action and message) with no forecast
record, and no exception escapes the scenario. -/
theorem single_candidate_forecast_failure_clarifies
    (o : Oracle) (ai : Option Interp) (a : Analysis) (cs : List CitySearchResult)
    (c : CitySearchResult) (e : String)
    (hg1 : guard1 (interpretationOf ai a) a = false)
    (hg2 : guard2 (interpretationOf ai a) a = false)
    (hg3 : guard3 (interpretationOf ai a) a = true)
    (hcity : jsTruthyS (resolveCity3 (interpretationOf ai a) a).1 = true)
    (hsearch : o.searchCityRaw (jsArgString (resolveCity3 (interpretationOf ai a) a).1) =
      Except.ok cs)
    (hfilter : applyStateFilter cs (resolveCity3 (interpretationOf ai a) a).2 = [c])
    (hforecast : o.forecastRaw c.id = Except.error e) :
    executeBody o ai a = Except.ok (execute o ai a) ∧
    (execute o ai a).action = some "CITY_NOT_FOUND" ∧
    (execute o ai a).weatherData = none ∧
    (execute o ai a).initialMessage =
      "❌ Não encontrei a cidade \"" ++
        jsArgString (resolveCity3 (interpretationOf ai a) a).1 ++
        "\" na base de dados do CPTEC." := by
  have hs := searchCityAndForecast_single_forecast_error o _ _ cs c e hsearch hfilter hforecast
  have hb : executeBody o ai a =
      Except.ok (cityNotFoundOutcome (jsArgString (resolveCity3 (interpretationOf ai a) a).1)) := by
    unfold executeBody
    rw [if_neg (by simp [hg1]), if_neg (by simp [hg2]), if_pos hg3]
    unfold scenario3E
    rw [if_pos hcity, hs]
    rfl
  rw [execute_eq_of_body o ai a _ hb]
  exact ⟨by rw [hb], rfl, rfl, rfl⟩

/-- The single candidate returned for the C8 witness. -/
def c8City : CitySearchResult := ⟨244, "Ibitinga", "SP"⟩

/-- City search finds exactly one candidate, the forecast call fails. -/
def c8Oracle : Oracle :=
  { postcodeRaw := fun _ => .error "offline"
    searchCityRaw := fun _ => .ok [c8City]
    forecastRaw := fun _ => .error "Erro na consulta de previsão do tempo: 500" }

/-- Extractor analysis of an input like `"previsão Ibitinga"`. -/
def c8Analysis : Analysis :=
  { extractedZipCode := none
    hasWeatherRequest := true
    isContextualQuery := false
    cityAndState := none
    bestCityName := some "Ibitinga" }

theorem single_candidate_forecast_failure_clarifies_witness :
    guard1 (interpretationOf none c8Analysis) c8Analysis = false ∧
    guard2 (interpretationOf none c8Analysis) c8Analysis = false ∧
    guard3 (interpretationOf none c8Analysis) c8Analysis = true ∧
    jsTruthyS (resolveCity3 (interpretationOf none c8Analysis) c8Analysis).1 = true ∧
    c8Oracle.searchCityRaw
        (jsArgString (resolveCity3 (interpretationOf none c8Analysis) c8Analysis).1) =
      Except.ok [c8City] ∧
    applyStateFilter [c8City] (resolveCity3 (interpretationOf none c8Analysis) c8Analysis).2 =
      [c8City] ∧
    c8Oracle.forecastRaw c8City.id =
      Except.error "Erro na consulta de previsão do tempo: 500" ∧
    (execute c8Oracle none c8Analysis).action = some "CITY_NOT_FOUND" :=
  ⟨rfl, rfl, rfl, rfl, rfl, rfl, rfl,
    (single_candidate_forecast_failure_clarifies c8Oracle none c8Analysis [c8City] c8City
      "Erro na consulta de previsão do tempo: 500" rfl rfl rfl rfl rfl rfl rfl).2.1⟩

/-- Claim C9: `extractZipCode` is a normalizing round-trip on canonical
ZIP codes: any string of exactly 8 digits is returned unchanged, and the
three inputs `"01310-100"`, `"01310100"` and `"01310 100"` all yield the
canonical value `"01310100"`. -/
theorem extract_zip_code_roundtrip :
    (∀ s : String, s.data.length = 8 → (∀ c ∈ s.data, c.isDigit = true) →
      extractZipCode s = some s) ∧
    extractZipCode "01310-100" = some "01310100" ∧
    extractZipCode "01310100" = some "01310100" ∧
    extractZipCode "01310 100" = some "01310100" := by
  refine ⟨?_, by decide, by decide, by decide⟩
  intro s h8 hd
  obtain ⟨l⟩ := s
  have hf : l.filter Char.isDigit = l := List.filter_eq_self.mpr hd
  simp [extractZipCode, extractNumbers, hf, h8]

theorem extract_zip_code_roundtrip_witness :
    ("01310100" : String).data.length = 8 ∧
    (∀ c ∈ ("01310100" : String).data, c.isDigit = true) ∧
    extractZipCode "01310100" = some "01310100" :=
  ⟨by decide, by decide, extract_zip_code_roundtrip.1 "01310100" (by decide) (by decide)⟩

/-- Claim C4 counterexample: a 10-digit phone-number string has no
hyphenated or space-separated ZIP shape, yet `extractZipCode` does not
return `none`: the unanchored `\d{8}` pattern matches inside the longer
digit run and the function returns the run's first 8 digits. -/
theorem phone_number_run_yields_first_eight_digits :
    extractZipCode "1234567890" = some "12345678" := by
  decide

/-- Claim C4 as amended: for text whose digit content exceeds 8 digits,
`extractZipCode` returns `none` exactly when no pattern of the loop
(`DDDDD-DDD`; any 8 consecutive digits; `DDDDD`, a JS-whitespace run,
`DDD`) produces a match cleaning to exactly 8 digits anywhere in the
original text.  Because a run of 9 or more digits itself contains 8
consecutive digits, a 10-digit phone-number string yields the first 8
digits of the run rather than `none`. -/
theorem long_digit_run_no_pattern_yields_none (s : String)
    (h9 : 8 < (extractNumbers s.data).length) :
    extractZipCode s = none ↔
      (patResult (findMatch matchP1At s.data) = none ∧
       patResult (findMatch matchP2At s.data) = none ∧
       patResult (findMatch matchP3At s.data) = none) := by
  have hne : ¬ (extractNumbers s.data).length = 8 := by omega
  have hx : extractZipCode s = firstPatternHit s.data := by
    simp [extractZipCode, hne, h9]
  rw [hx]
  unfold firstPatternHit
  cases h1 : patResult (findMatch matchP1At s.data) with
  | some r => simp [h1]
  | none =>
    cases h2 : patResult (findMatch matchP2At s.data) with
    | some r => simp [h2]
    | none =>
      cases h3 : patResult (findMatch matchP3At s.data) with
      | some r => simp [h3]
      | none => simp [h3]

theorem long_digit_run_no_pattern_yields_none_witness :
    8 < (extractNumbers ("1234 5678 9123" : String).data).length ∧
    extractZipCode "1234 5678 9123" = none :=
  ⟨by decide,
    (long_digit_run_no_pattern_yields_none "1234 5678 9123" (by decide)).mpr
      ⟨by decide, by decide, by decide⟩⟩
